import Mathlib

/-!
Shallow embedding of the authentication/identity-resolution layer of
`src/authHelper-old-complex.js` (the "old complex" auth helper), together
with theorems checking the specification's claims about it.

Conventions of the embedding:
* JavaScript objects that flow through the binder functions are modelled as
  association lists of `String × Value` (`Record`), with `jsLookup` returning
  `Value.vUndef` for a missing property, exactly as property access on a
  missing key yields `undefined` in JavaScript.
* The ambient browser state the helper reads (the resolved result of
  `getCurrentUserId()` and the `localStorage` slot `anon_profile_id`) is made
  explicit as `SessionState`.
* Remote-service behaviour (Supabase structured transport and the generic
  REST transport) is a `Remote` oracle of response functions; one call of
  `getOrCreateAnonymousProfile` is a pure function of the oracle and the
  cache slot, returning the result, the new cache slot, and an event log.
* The file models the configuration in which `window.enhancedDB` is absent,
  i.e. the plain-Supabase / plain-`fetch` branches of the source, and
  `window.errorHandler` is present; this is the configuration the claims'
  cited line ranges exercise.
-/

namespace AuthHelper

/-- JavaScript runtime values as far as the auth helper manipulates them:
`null`, `undefined`, strings, booleans and numbers. -/
inductive Value
  | vNull
  | vUndef
  | vStr (s : String)
  | vBool (b : Bool)
  | vNum (n : Int)
deriving DecidableEq, Repr

/-- A JavaScript object, as an association list of properties. -/
abbrev Record := List (String × Value)

/-- Property access `r[k]`: the first binding of `k`, `undefined` if absent. -/
def jsLookup : Record → String → Value
  | [], _ => Value.vUndef
  | (k', v') :: rest, k => if k' = k then v' else jsLookup rest k

/-- The object-spread update `\x7b...r, k: v\x7d` restricted to one key:
overwrite the first binding of `k`, or append the property if absent. -/
def setField : Record → String → Value → Record
  | [], k, v => [(k, v)]
  | (k', v') :: rest, k, v =>
    if k' = k then (k, v) :: rest else (k', v') :: setField rest k v

/-- JavaScript truthiness test used by `if (x)` / `!x` in the source. -/
def falsy : Value → Bool
  | Value.vNull => true
  | Value.vUndef => true
  | Value.vStr s => s = ""
  | Value.vBool b => !b
  | Value.vNum n => n = 0

/-- A value that counts as a null ownership field (`null` or `undefined`). -/
def isNullish : Value → Bool
  | Value.vNull => true
  | Value.vUndef => true
  | _ => false

/-- Prefix test on character lists, used to model `String.prototype.includes`. -/
def charsPrefix : List Char → List Char → Bool
  | [], _ => true
  | _ :: _, [] => false
  | a :: as, b :: bs => a = b && charsPrefix as bs

/-- Substring occurrence on character lists. -/
def charsIncludes (needle : List Char) : List Char → Bool
  | [] => needle.isEmpty
  | c :: rest => charsPrefix needle (c :: rest) || charsIncludes needle rest

/-- Model of JavaScript `hay.includes(needle)`. -/
def strIncludes (hay needle : String) : Bool :=
  charsIncludes needle.toList hay.toList

/-- The ambient per-session state the binder functions read: the identity the
resolver `getCurrentUserId()` would currently report (a user id string or
`null`), and the single-slot `localStorage` cache `anon_profile_id`. -/
structure SessionState where
  auth : Option String
  cache : Option String
deriving DecidableEq, Repr

/-- Embedding of `getCurrentUserIdentifier` (src lines 85-119, simplified
invite-only version): returns an object with `user_id` and bookkeeping flags;
note that neither branch ever includes an `anon_profile_id` property. -/
def getCurrentUserIdentifier (st : SessionState) : Record :=
  match st.auth with
  | some userId =>
    if userId = "" then
      [("user_id", Value.vNull), ("is_authenticated", Value.vBool false),
       ("requires_login", Value.vBool true)]
    else
      [("user_id", Value.vStr userId), ("is_authenticated", Value.vBool true)]
  | none =>
    [("user_id", Value.vNull), ("is_authenticated", Value.vBool false),
     ("requires_login", Value.vBool true)]

/-- Embedding of `addUserIdentifierToData` (src lines 610-618): spread the
input data and set both ownership fields from the identifier object; the
`anon_profile_id` read is a missing-property access yielding `undefined`. -/
def addUserIdentifierToData (st : SessionState) (data : Record) : Record :=
  let identifier := getCurrentUserIdentifier st
  setField (setField data "user_id" (jsLookup identifier "user_id"))
    "anon_profile_id" (jsLookup identifier "anon_profile_id")

/-- Embedding of `requireAuthentication` (src lines 581-587): throws
`User not authenticated` when `getCurrentUserId()` yields a falsy value. -/
def requireAuthentication (st : SessionState) : Except String String :=
  match st.auth with
  | some userId =>
    if userId = "" then Except.error "User not authenticated" else Except.ok userId
  | none => Except.error "User not authenticated"

/-- Embedding of `createInsertPayload` (src lines 626-637). -/
def createInsertPayload (st : SessionState) (data : Record) (requireAuth : Bool) :
    Except String Record :=
  if requireAuth then
    match requireAuthentication st with
    | Except.error e => Except.error e
    | Except.ok userId =>
      Except.ok (setField (setField data "user_id" (Value.vStr userId))
        "anon_profile_id" Value.vNull)
  else
    Except.ok (addUserIdentifierToData st data)

/-- Embedding of `requireUserIdentifier` (src lines 595-603): throws when both
`identifier.user_id` and `identifier.anon_profile_id` are falsy. -/
def requireUserIdentifier (st : SessionState) : Except String Record :=
  let identifier := getCurrentUserIdentifier st
  if falsy (jsLookup identifier "user_id") && falsy (jsLookup identifier "anon_profile_id") then
    Except.error "No valid user identifier available"
  else
    Except.ok identifier

/-- The claimed persisted-record ownership invariant: exactly one of the two
ownership fields is non-null (where `undefined` counts as null). -/
def exactlyOneOwner (p : Record) : Bool :=
  (!isNullish (jsLookup p "user_id") && isNullish (jsLookup p "anon_profile_id"))
  || (isNullish (jsLookup p "user_id") && !isNullish (jsLookup p "anon_profile_id"))

theorem jsLookup_setField_self (r : Record) (k : String) (v : Value) :
    jsLookup (setField r k v) k = v := by
  induction r with
  | nil => simp [setField, jsLookup]
  | cons p rest ih =>
    obtain ⟨k', v'⟩ := p
    by_cases h : k' = k <;> simp [setField, jsLookup, h, ih]

theorem jsLookup_setField_other (r : Record) (k : String) (v : Value) (k' : String)
    (h : k' ≠ k) : jsLookup (setField r k v) k' = jsLookup r k' := by
  have hk : k ≠ k' := fun hkk => h hkk.symm
  induction r with
  | nil => simp [setField, jsLookup, hk]
  | cons p rest ih =>
    obtain ⟨k₀, v₀⟩ := p
    by_cases h0 : k₀ = k
    · subst h0
      simp [setField, jsLookup, hk]
    · by_cases h1 : k₀ = k'
      · subst h1
        simp [setField, jsLookup, h0, h]
      · simp [setField, jsLookup, h0, h1, ih]

/-- The three record shapes the guest-provisioning chain tries, in order:
`sa` = \x7bdisplay_name, expires_at\x7d, `sb` = \x7bdisplay_name\x7d, `sc` = \x7b\x7d. -/
inductive Shape
  | sa
  | sb
  | sc
deriving DecidableEq, Repr

/-- Observable events of one `getOrCreateAnonymousProfile` run. -/
inductive Ev
  | verifyCached (id : String)
  | evictCache
  | insAttempt (s : Shape)
  | storeCache (id : String)
  | restVerify (id : String)
  | restEvict
  | restPostAttempt (s : Shape)
  | restStore (id : String)
deriving DecidableEq, Repr

/-- Oracle for the remote store's responses during one run: structured-select
existence check by id, structured insert per shape (error message or created
id), REST GET classification, and REST POST per shape. -/
structure Remote where
  existsId : String → Bool
  ins : Shape → Except String String
  restGetOk : String → Bool
  restGet404 : String → Bool
  restPost : Shape → Option String

/-- Result of one provisioning run: returned id (or null), the cache slot
after the run, and the event log. -/
abbrev RunResult := Option String × Option String × List Ev

/-- The REST creation loop (src lines 468-508): POST each of the three shapes
in order regardless of the failure reason, stop at the first success and store
the created id; if the last shape also fails the thrown error is caught by the
outer handler and the run yields `null`. -/
def restCreateLoop (r : Remote) (cache : Option String) (log : List Ev) : RunResult :=
  match r.restPost Shape.sa with
  | some i => (some i, some i, log ++ [Ev.restPostAttempt Shape.sa, Ev.restStore i])
  | none =>
    match r.restPost Shape.sb with
    | some i =>
      (some i, some i,
        log ++ [Ev.restPostAttempt Shape.sa, Ev.restPostAttempt Shape.sb, Ev.restStore i])
    | none =>
      match r.restPost Shape.sc with
      | some i =>
        (some i, some i,
          log ++ [Ev.restPostAttempt Shape.sa, Ev.restPostAttempt Shape.sb,
            Ev.restPostAttempt Shape.sc, Ev.restStore i])
      | none =>
        (none, cache,
          log ++ [Ev.restPostAttempt Shape.sa, Ev.restPostAttempt Shape.sb,
            Ev.restPostAttempt Shape.sc])

/-- The RESTful fallback entered from the catch handler (src lines 340-520,
plain-`fetch` branches): re-read the cache, verify it via `GET`; on an ok
response return the id, on 404 evict, otherwise fall through; then run the
REST creation loop. -/
def restFallback (r : Remote) (cache : Option String) (log : List Ev) : RunResult :=
  match cache with
  | some id =>
    if r.restGetOk id then (some id, some id, log ++ [Ev.restVerify id])
    else if r.restGet404 id then
      restCreateLoop r none (log ++ [Ev.restVerify id, Ev.restEvict])
    else restCreateLoop r (some id) (log ++ [Ev.restVerify id])
  | none => restCreateLoop r cache log

/-- The structured-transport creation chain (src lines 253-316): try shape
`sa`; if its error message contains `expires_at` try `sb`; if there is still
an error and no data try `sc`; on success store and return the id, and if an
error remains, throw into the REST fallback. -/
def structuredCreate (r : Remote) (cache : Option String) (log : List Ev) : RunResult :=
  match r.ins Shape.sa with
  | Except.ok i => (some i, some i, log ++ [Ev.insAttempt Shape.sa, Ev.storeCache i])
  | Except.error m =>
    if strIncludes m "expires_at" then
      match r.ins Shape.sb with
      | Except.ok i =>
        (some i, some i,
          log ++ [Ev.insAttempt Shape.sa, Ev.insAttempt Shape.sb, Ev.storeCache i])
      | Except.error _ =>
        match r.ins Shape.sc with
        | Except.ok i =>
          (some i, some i,
            log ++ [Ev.insAttempt Shape.sa, Ev.insAttempt Shape.sb,
              Ev.insAttempt Shape.sc, Ev.storeCache i])
        | Except.error _ =>
          restFallback r cache
            (log ++ [Ev.insAttempt Shape.sa, Ev.insAttempt Shape.sb, Ev.insAttempt Shape.sc])
    else
      match r.ins Shape.sc with
      | Except.ok i =>
        (some i, some i,
          log ++ [Ev.insAttempt Shape.sa, Ev.insAttempt Shape.sc, Ev.storeCache i])
      | Except.error _ =>
        restFallback r cache (log ++ [Ev.insAttempt Shape.sa, Ev.insAttempt Shape.sc])

/-- Embedding of `getOrCreateAnonymousProfile` (src lines 127-522, plain
branches): read the cached id; if present verify it against the remote store,
returning it when found and evicting it when not; then run the creation
chain. -/
def getOrCreateAnonymousProfile (r : Remote) (cache : Option String) : RunResult :=
  match cache with
  | some id =>
    if r.existsId id then (some id, some id, [Ev.verifyCached id])
    else structuredCreate r none [Ev.verifyCached id, Ev.evictCache]
  | none => structuredCreate r none []

/-- The structured-transport insert attempts of a log, in order. -/
def attemptsOf (log : List Ev) : List Shape :=
  log.filterMap fun e =>
    match e with
    | Ev.insAttempt s => some s
    | _ => none

/-- Whether an event is a remote creation call (structured insert or REST
POST). -/
def isCreationCall : Ev → Bool
  | Ev.insAttempt _ => true
  | Ev.restPostAttempt _ => true
  | _ => false

/-- Number of remote creation calls recorded in a log. -/
def creationCalls (log : List Ev) : Nat :=
  (log.filter isCreationCall).length

/-- Cache slots after each of a sequence of `getOrCreateAnonymousProfile`
calls, threading the cache, with call `k` answered by the `k`-th oracle. -/
def cacheStates : List Remote → Option String → List (Option String)
  | [], _ => []
  | r :: rs, c =>
    let c' := (getOrCreateAnonymousProfile r c).2.1
    c' :: cacheStates rs c'

/-- The remote never mints the id `old`: structured inserts and REST POSTs
only ever return fresh ids distinct from it. -/
def freshFor (r : Remote) (old : String) : Prop :=
  (∀ s i, r.ins s = Except.ok i → i ≠ old) ∧ (∀ s i, r.restPost s = some i → i ≠ old)

/-- The sentinel filter returned when no identity is resolvable
(src line 659). -/
def noUserFilter : Record :=
  [("user_id", Value.vStr "no-user"), ("anon_profile_id", Value.vStr "no-user")]

/-- Embedding of `getUserQueryFilter` (src lines 644-660); also returns the
cache slot as left by any provisioning attempt. -/
def getUserQueryFilter (st : SessionState) (r : Remote) (allowAnonymous : Bool) :
    Record × Option String :=
  match st.auth with
  | some userId => ([("user_id", Value.vStr userId)], st.cache)
  | none =>
    if allowAnonymous then
      let res := getOrCreateAnonymousProfile r st.cache
      match res.1 with
      | some anonProfileId => ([("anon_profile_id", Value.vStr anonProfileId)], res.2.1)
      | none => (noUserFilter, res.2.1)
    else (noUserFilter, st.cache)

/-- An equality filter matches a row when every filter field equals the row's
value at that key. -/
def matchesFilter (f row : Record) : Bool :=
  f.all fun kv => decide (jsLookup row kv.1 = kv.2)

/-- Embedding of `clearAnonymousProfile` (src lines 665-689): remove the
cached id; if the storage layer throws, the error is caught and the slot is
left as it was; never throws either way. -/
def clearAnonymousProfile (storageOk : Bool) (cache : Option String) : Option String :=
  if storageOk then none else cache

/-- Outcome of the remote `auth.signOut()` call raced against the 5000 ms
timer: resolved (with an unchecked error field) or rejected (service rejection
or the timer's `Sign out timeout`). -/
inductive SignOutUpstream
  | resolved (error : Option String)
  | rejected (msg : String)
deriving DecidableEq, Repr

/-- Embedding of `signOut` (src lines 694-743): best-effort remote sign-out;
on resolution continue to `clearAnonymousProfile`, on rejection the catch
handler also runs `clearAnonymousProfile`; the Bool result records whether the
function threw, which it never does. -/
def signOut (u : SignOutUpstream) (storageOk : Bool) (cache : Option String) :
    Option String × Bool :=
  match u with
  | SignOutUpstream.resolved _ => (clearAnonymousProfile storageOk cache, false)
  | SignOutUpstream.rejected _ => (clearAnonymousProfile storageOk cache, false)

/-- Outcome of `auth.getUser()` raced against the 5000 ms timer in
`getCurrentUserId`: resolved with `\x7bdata, error\x7d`, a rejection carrying a
message (the timer rejects with `Authentication timeout`), or no client. -/
inductive AuthUpstream
  | resolved (error : Option String) (uid : Option String)
  | thrown (msg : String)
  | noClient
deriving DecidableEq, Repr

/-- The session-wide diagnostic state: the `authTimeoutLogged` flag (src line
12), the console log as (level, tag) pairs, and the `errorHandler` log as
(code, severity) pairs. -/
structure DiagState where
  authTimeoutLogged : Bool
  consoleLog : List (String × String)
  handlerLog : List (String × String)
deriving DecidableEq, Repr

/-- State at page load: flag cleared, both logs empty (src lines 12-13). -/
def initDiagState : DiagState := ⟨false, [], []⟩

/-- Embedding of `getCurrentUserId` (src lines 19-78) with the ambient
diagnostic state made explicit. A resolved service error warns on the console
every time and logs `AUTH_GET_USER` at medium severity only when the
`authTimeoutLogged` flag is clear, setting it; a rejection whose message
contains `timeout` logs `AUTH_TIMEOUT` at low severity under the same gate; a
non-timeout rejection is rethrown into the outer catch, which logs
`AUTH_GET_USER_ID` at high severity unconditionally. All paths return
without throwing (the outer catch returns `null`). -/
def getCurrentUserId (u : AuthUpstream) (st : DiagState) : Option String × DiagState :=
  match u with
  | AuthUpstream.noClient =>
    (none, { st with consoleLog := st.consoleLog ++ [("warn", "Supabase client not available")] })
  | AuthUpstream.resolved (some _) _ =>
    let st1 := { st with consoleLog := st.consoleLog ++ [("warn", "Error getting current user")] }
    if st1.authTimeoutLogged then (none, st1)
    else
      (none, { st1 with handlerLog := st1.handlerLog ++ [("AUTH_GET_USER", "medium")],
                        authTimeoutLogged := true })
  | AuthUpstream.resolved none uid => (uid, st)
  | AuthUpstream.thrown m =>
    if strIncludes m "timeout" then
      let st1 :=
        { st with consoleLog := st.consoleLog ++ [("debug", "Authentication timeout - using anonymous mode")] }
      if st1.authTimeoutLogged then (none, st1)
      else
        (none, { st1 with handlerLog := st1.handlerLog ++ [("AUTH_TIMEOUT", "low")],
                          authTimeoutLogged := true })
    else
      (none, { st with consoleLog := st.consoleLog ++ [("error", "Error in getCurrentUserId")],
                       handlerLog := st.handlerLog ++ [("AUTH_GET_USER_ID", "high")] })

/-- A sequence of `getCurrentUserId` calls in one session, threading the
diagnostic state. -/
def runGetCurrentUserId : List AuthUpstream → DiagState → List (Option String) × DiagState
  | [], st => ([], st)
  | u :: us, st =>
    let step := getCurrentUserId u st
    let rest := runGetCurrentUserId us step.2
    (step.1 :: rest.1, rest.2)

/-- A remote whose structured inserts fail with a message unrelated to
`expires_at` and whose other transports all fail. -/
def rUnrelated : Remote :=
  { existsId := fun _ => false
    ins := fun _ => Except.error "new row violates row-level security policy"
    restGetOk := fun _ => false
    restGet404 := fun _ => false
    restPost := fun _ => none }

/-- A fully unavailable remote: nothing verifies, every creation fails. -/
def rDown : Remote :=
  { existsId := fun _ => false
    ins := fun _ => Except.error "service unavailable"
    restGetOk := fun _ => false
    restGet404 := fun _ => false
    restPost := fun _ => none }

/-- A remote on which shape (a) fails because the `expires_at` column is
missing and the later shapes also fail. -/
def rExpiresFail : Remote :=
  { existsId := fun _ => false
    ins := fun s =>
      match s with
      | Shape.sa => Except.error "column expires_at of relation anonymous_profiles does not exist"
      | Shape.sb => Except.error "insert into anonymous_profiles denied"
      | Shape.sc => Except.error "insert into anonymous_profiles denied"
    restGetOk := fun _ => false
    restGet404 := fun _ => false
    restPost := fun _ => none }

/-- A remote on which shape (a) fails for a missing `expires_at` column and
shape (b) succeeds. -/
def rShapeBOk : Remote :=
  { existsId := fun _ => false
    ins := fun s =>
      match s with
      | Shape.sa => Except.error "could not find the expires_at column"
      | Shape.sb => Except.ok "new-2"
      | Shape.sc => Except.error "unused"
    restGetOk := fun _ => false
    restGet404 := fun _ => false
    restPost := fun _ => none }

/-- A remote on which shape (a) creation succeeds immediately with a fresh
id, and nothing is cached remotely. -/
def rFreshA : Remote :=
  { existsId := fun _ => false
    ins := fun s =>
      match s with
      | Shape.sa => Except.ok "new-1"
      | _ => Except.error "unused"
    restGetOk := fun _ => false
    restGet404 := fun _ => false
    restPost := fun _ => none }

/-- A remote on which the cached id `anon-7` verifies as existing. -/
def rCacheHit : Remote :=
  { existsId := fun id => id == "anon-7"
    ins := fun _ => Except.error "unused"
    restGetOk := fun _ => false
    restGet404 := fun _ => false
    restPost := fun _ => none }

theorem payload_lookup_anon (data : Record) (x y : Value) :
    jsLookup (setField (setField data "user_id" x) "anon_profile_id" y) "anon_profile_id" = y :=
  jsLookup_setField_self _ _ _

theorem payload_lookup_user (data : Record) (x y : Value) :
    jsLookup (setField (setField data "user_id" x) "anon_profile_id" y) "user_id" = x := by
  rw [jsLookup_setField_other _ _ _ _ (by decide), jsLookup_setField_self]

theorem payload_lookup_other (data : Record) (x y : Value) (k : String)
    (h1 : k ≠ "user_id") (h2 : k ≠ "anon_profile_id") :
    jsLookup (setField (setField data "user_id" x) "anon_profile_id" y) k = jsLookup data k := by
  rw [jsLookup_setField_other _ _ _ _ h2, jsLookup_setField_other _ _ _ _ h1]

theorem identifier_no_anon_field (st : SessionState) :
    jsLookup (getCurrentUserIdentifier st) "anon_profile_id" = Value.vUndef := by
  rcases st with ⟨auth, cache⟩
  cases auth with
  | none => simp [getCurrentUserIdentifier, jsLookup]
  | some u =>
    by_cases h : u = "" <;> simp [getCurrentUserIdentifier, jsLookup, h]

theorem identifier_user_auth (st : SessionState) (u : String) (hu : st.auth = some u)
    (hne : u ≠ "") : jsLookup (getCurrentUserIdentifier st) "user_id" = Value.vStr u := by
  simp [getCurrentUserIdentifier, hu, hne, jsLookup]

theorem identifier_user_unauth (st : SessionState) (hu : st.auth = none) :
    jsLookup (getCurrentUserIdentifier st) "user_id" = Value.vNull := by
  simp [getCurrentUserIdentifier, hu, jsLookup]

theorem attemptsOf_append (l1 l2 : List Ev) :
    attemptsOf (l1 ++ l2) = attemptsOf l1 ++ attemptsOf l2 := by
  simp [attemptsOf]

theorem attemptsOf_restCreateLoop (r : Remote) (c : Option String) (log : List Ev) :
    attemptsOf (restCreateLoop r c log).2.2 = attemptsOf log := by
  unfold restCreateLoop
  cases r.restPost Shape.sa with
  | some i => simp [attemptsOf]
  | none =>
    cases r.restPost Shape.sb with
    | some i => simp [attemptsOf]
    | none =>
      cases r.restPost Shape.sc with
      | some i => simp [attemptsOf]
      | none => simp [attemptsOf]

theorem attemptsOf_restFallback (r : Remote) (c : Option String) (log : List Ev) :
    attemptsOf (restFallback r c log).2.2 = attemptsOf log := by
  unfold restFallback
  cases c with
  | none => exact attemptsOf_restCreateLoop r _ log
  | some id =>
    by_cases h1 : r.restGetOk id
    · simp [h1, attemptsOf]
    · by_cases h2 : r.restGet404 id
      · simp only [h1, h2]
        rw [if_neg (by simp), if_pos trivial, attemptsOf_restCreateLoop, attemptsOf_append]
        simp [attemptsOf]
      · simp only [h1, h2]
        rw [if_neg (by simp), if_neg (by simp), attemptsOf_restCreateLoop, attemptsOf_append]
        simp [attemptsOf]

theorem restCreateLoop_safe (r : Remote) (old : String) (c : Option String) (log : List Ev)
    (hf : ∀ s i, r.restPost s = some i → i ≠ old) (hc : c ≠ some old) :
    (restCreateLoop r c log).1 ≠ some old ∧ (restCreateLoop r c log).2.1 ≠ some old := by
  unfold restCreateLoop
  cases hp1 : r.restPost Shape.sa with
  | some i => simpa using fun h => hf Shape.sa i hp1 h
  | none =>
    cases hp2 : r.restPost Shape.sb with
    | some i => simpa using fun h => hf Shape.sb i hp2 h
    | none =>
      cases hp3 : r.restPost Shape.sc with
      | some i => simpa using fun h => hf Shape.sc i hp3 h
      | none => exact ⟨by simp, hc⟩

theorem restFallback_safe (r : Remote) (old : String) (c : Option String) (log : List Ev)
    (hf : ∀ s i, r.restPost s = some i → i ≠ old) (hc : c ≠ some old) :
    (restFallback r c log).1 ≠ some old ∧ (restFallback r c log).2.1 ≠ some old := by
  unfold restFallback
  cases c with
  | none => exact restCreateLoop_safe r old _ log hf hc
  | some id =>
    have hid : id ≠ old := fun h => hc (by rw [h])
    by_cases h1 : r.restGetOk id
    · simpa [h1] using hid
    · by_cases h2 : r.restGet404 id
      · simpa [h1, h2] using restCreateLoop_safe r old none _ hf (by simp)
      · simpa [h1, h2] using restCreateLoop_safe r old (some id) _ hf hc

theorem structuredCreate_safe (r : Remote) (old : String) (c : Option String) (log : List Ev)
    (hf : freshFor r old) (hc : c ≠ some old) :
    (structuredCreate r c log).1 ≠ some old ∧ (structuredCreate r c log).2.1 ≠ some old := by
  unfold structuredCreate
  cases hsa : r.ins Shape.sa with
  | ok i => simpa using fun h => hf.1 Shape.sa i hsa h
  | error m =>
    by_cases hm : strIncludes m "expires_at" = true
    · simp only [hm, if_true]
      cases hsb : r.ins Shape.sb with
      | ok i => simpa using fun h => hf.1 Shape.sb i hsb h
      | error m2 =>
        cases hsc : r.ins Shape.sc with
        | ok i => simpa using fun h => hf.1 Shape.sc i hsc h
        | error m3 => exact restFallback_safe r old c _ hf.2 hc
    · simp only [eq_false_of_ne_true (fun h => hm h), if_false]
      cases hsc : r.ins Shape.sc with
      | ok i => simpa using fun h => hf.1 Shape.sc i hsc h
      | error m3 => exact restFallback_safe r old c _ hf.2 hc

theorem getOrCreate_safe (r : Remote) (old : String) (c : Option String)
    (hf : freshFor r old) (hor : c ≠ some old ∨ r.existsId old = false) :
    (getOrCreateAnonymousProfile r c).1 ≠ some old
    ∧ (getOrCreateAnonymousProfile r c).2.1 ≠ some old := by
  unfold getOrCreateAnonymousProfile
  cases c with
  | none => exact structuredCreate_safe r old none _ hf (by simp)
  | some id =>
    by_cases hex : r.existsId id
    · have hid : id ≠ old := by
        rcases hor with h | h
        · exact fun he => h (by rw [he])
        · exact fun he => by rw [he] at hex; exact absurd hex (by simp [h])
      simpa [hex] using hid
    · simpa [hex] using structuredCreate_safe r old none _ hf (by simp)

theorem cacheStates_safe (rs : List Remote) (old : String) (c : Option String)
    (hf : ∀ r ∈ rs, freshFor r old) (hc : c ≠ some old) :
    ∀ c' ∈ cacheStates rs c, c' ≠ some old := by
  induction rs generalizing c with
  | nil => simp [cacheStates]
  | cons r rest ih =>
    intro c' hc'
    have hstep := getOrCreate_safe r old c (hf r (by simp)) (Or.inl hc)
    rcases List.mem_cons.mp hc' with h | h
    · rw [h]; exact hstep.2
    · exact ih _ (fun r' hr' => hf r' (List.mem_cons_of_mem _ hr')) hstep.2 c' h

/-- Claim C1, counterexample: with an unauthenticated caller — even one whose
local cache holds an anonymous profile id — the payload produced by
`addUserIdentifierToData` has `user_id = null` and `anon_profile_id`
undefined, so it carries zero non-null ownership fields, refuting the claimed
"exactly one non-null, never both null" invariant for this binder. -/
theorem addUserIdentifierToData_bothNull_cex :
    exactlyOneOwner (addUserIdentifierToData ⟨none, some "anon-1"⟩ []) = false
    ∧ jsLookup (addUserIdentifierToData ⟨none, some "anon-1"⟩ []) "user_id" = Value.vNull
    ∧ jsLookup (addUserIdentifierToData ⟨none, some "anon-1"⟩ []) "anon_profile_id"
        = Value.vUndef := by
  decide

/-- Claim C1, amended: the payload carries at most one non-null ownership
field. Its `anon_profile_id` is always `undefined` (the simplified
`getCurrentUserIdentifier` never supplies one, regardless of the cache); when
the caller is authenticated `user_id` is the user's id, giving exactly one
non-null ownership field, and when unauthenticated `user_id` is `null`,
giving zero rather than the claimed one. -/
theorem addUserIdentifierToData_ownership (st : SessionState) (data : Record) :
    jsLookup (addUserIdentifierToData st data) "anon_profile_id" = Value.vUndef
    ∧ (∀ u, st.auth = some u → u ≠ "" →
        jsLookup (addUserIdentifierToData st data) "user_id" = Value.vStr u
        ∧ exactlyOneOwner (addUserIdentifierToData st data) = true)
    ∧ (st.auth = none →
        jsLookup (addUserIdentifierToData st data) "user_id" = Value.vNull
        ∧ exactlyOneOwner (addUserIdentifierToData st data) = false) := by
  refine ⟨?_, ?_, ?_⟩
  · simp only [addUserIdentifierToData]
    rw [payload_lookup_anon, identifier_no_anon_field]
  · intro u hu hne
    have h1 : jsLookup (addUserIdentifierToData st data) "user_id" = Value.vStr u := by
      simp only [addUserIdentifierToData]
      rw [payload_lookup_user, identifier_user_auth st u hu hne]
    refine ⟨h1, ?_⟩
    have h2 : jsLookup (addUserIdentifierToData st data) "anon_profile_id" = Value.vUndef := by
      simp only [addUserIdentifierToData]
      rw [payload_lookup_anon, identifier_no_anon_field]
    simp [exactlyOneOwner, h1, h2, isNullish]
  · intro hu
    have h1 : jsLookup (addUserIdentifierToData st data) "user_id" = Value.vNull := by
      simp only [addUserIdentifierToData]
      rw [payload_lookup_user, identifier_user_unauth st hu]
    refine ⟨h1, ?_⟩
    have h2 : jsLookup (addUserIdentifierToData st data) "anon_profile_id" = Value.vUndef := by
      simp only [addUserIdentifierToData]
      rw [payload_lookup_anon, identifier_no_anon_field]
    simp [exactlyOneOwner, h1, h2, isNullish]

/-- Claim C1, witness: the amended theorem evaluated at an authenticated
session with user `U1` and at an unauthenticated session whose cache holds
`anon-1`. -/
theorem addUserIdentifierToData_ownership_witness :
    jsLookup (addUserIdentifierToData ⟨some "U1", none⟩ [("foo", Value.vNum 1)]) "user_id"
        = Value.vStr "U1"
    ∧ exactlyOneOwner (addUserIdentifierToData ⟨some "U1", none⟩ [("foo", Value.vNum 1)]) = true
    ∧ jsLookup (addUserIdentifierToData ⟨none, some "anon-1"⟩ [("foo", Value.vNum 1)]) "user_id"
        = Value.vNull
    ∧ exactlyOneOwner (addUserIdentifierToData ⟨none, some "anon-1"⟩ [("foo", Value.vNum 1)])
        = false := by
  obtain ⟨h1, h2⟩ :=
    (addUserIdentifierToData_ownership ⟨some "U1", none⟩ [("foo", Value.vNum 1)]).2.1
      "U1" rfl (by decide)
  obtain ⟨h3, h4⟩ :=
    (addUserIdentifierToData_ownership ⟨none, some "anon-1"⟩ [("foo", Value.vNum 1)]).2.2 rfl
  exact ⟨h1, h2, h3, h4⟩

/-- Claim C7: with `requireAuth = true`, `createInsertPayload` fails with the
authentication-required error (`User not authenticated`) and produces no
payload when the caller is unauthenticated; when authenticated as `u` it
returns the input merged with `user_id = u` and `anon_profile_id = null`,
leaving every other field of the input unchanged. -/
theorem createInsertPayload_requireAuth (st : SessionState) (data : Record) :
    (st.auth = none →
      createInsertPayload st data true = Except.error "User not authenticated")
    ∧ (∀ u, st.auth = some u → u ≠ "" →
        ∃ p, createInsertPayload st data true = Except.ok p
          ∧ jsLookup p "user_id" = Value.vStr u
          ∧ jsLookup p "anon_profile_id" = Value.vNull
          ∧ ∀ k, k ≠ "user_id" → k ≠ "anon_profile_id" → jsLookup p k = jsLookup data k) := by
  constructor
  · intro h
    simp [createInsertPayload, requireAuthentication, h]
  · intro u hu hne
    refine ⟨setField (setField data "user_id" (Value.vStr u)) "anon_profile_id" Value.vNull,
      ?_, ?_, ?_, ?_⟩
    · simp [createInsertPayload, requireAuthentication, hu, hne]
    · exact payload_lookup_user data _ _
    · exact payload_lookup_anon data _ _
    · intro k h1 h2
      exact payload_lookup_other data _ _ k h1 h2

/-- Claim C7, witness: unauthenticated call on `\x7bfoo: 1\x7d` fails with the
authentication error; authenticated as `U1` it yields a payload with
`user_id = U1`, `anon_profile_id = null` and `foo` untouched. -/
theorem createInsertPayload_requireAuth_witness :
    createInsertPayload ⟨none, some "anon-1"⟩ [("foo", Value.vNum 1)] true
        = Except.error "User not authenticated"
    ∧ ∃ p, createInsertPayload ⟨some "U1", none⟩ [("foo", Value.vNum 1)] true = Except.ok p
        ∧ jsLookup p "user_id" = Value.vStr "U1"
        ∧ jsLookup p "anon_profile_id" = Value.vNull
        ∧ jsLookup p "foo" = Value.vNum 1 := by
  constructor
  · exact (createInsertPayload_requireAuth ⟨none, some "anon-1"⟩ [("foo", Value.vNum 1)]).1 rfl
  · obtain ⟨p, hp, h1, h2, h3⟩ :=
      (createInsertPayload_requireAuth ⟨some "U1", none⟩ [("foo", Value.vNum 1)]).2
        "U1" rfl (by decide)
    exact ⟨p, hp, h1, h2, by rw [h3 "foo" (by decide) (by decide)]; rfl⟩

/-- Claim C10: `requireUserIdentifier` throws the no-valid-identifier error in
every unauthenticated session — whatever the cache holds — because the
identifier object returned by `getCurrentUserIdentifier` never contains an
`anon_profile_id` property; it succeeds exactly on an authenticated session. -/
theorem requireUserIdentifier_authOnly (st : SessionState) :
    jsLookup (getCurrentUserIdentifier st) "anon_profile_id" = Value.vUndef
    ∧ (st.auth = none →
        requireUserIdentifier st = Except.error "No valid user identifier available")
    ∧ (∀ u, st.auth = some u → u ≠ "" →
        requireUserIdentifier st = Except.ok (getCurrentUserIdentifier st)) := by
  refine ⟨identifier_no_anon_field st, ?_, ?_⟩
  · intro h
    simp [requireUserIdentifier, identifier_no_anon_field st, identifier_user_unauth st h, falsy]
  · intro u hu hne
    simp [requireUserIdentifier, identifier_no_anon_field st, identifier_user_auth st u hu hne,
      falsy, hne]

/-- Claim C10, witness: unauthenticated with a cached `anon-1` still fails;
authenticated as `U1` succeeds. -/
theorem requireUserIdentifier_authOnly_witness :
    requireUserIdentifier ⟨none, some "anon-1"⟩
        = Except.error "No valid user identifier available"
    ∧ requireUserIdentifier ⟨some "U1", some "anon-1"⟩
        = Except.ok (getCurrentUserIdentifier ⟨some "U1", some "anon-1"⟩) :=
  ⟨(requireUserIdentifier_authOnly ⟨none, some "anon-1"⟩).2.1 rfl,
   (requireUserIdentifier_authOnly ⟨some "U1", some "anon-1"⟩).2.2 "U1" rfl (by decide)⟩

/-- Claim C5: when the cache holds an id the remote store verifies as
existing, two sequential calls to `getOrCreateAnonymousProfile` both return
that id and perform at most one (in fact zero) remote creation calls in
total. -/
theorem getOrCreateAnonymousProfile_idempotent (r : Remote) (x : String)
    (hx : r.existsId x = true) :
    (getOrCreateAnonymousProfile r (some x)).1 = some x
    ∧ (getOrCreateAnonymousProfile r
        ((getOrCreateAnonymousProfile r (some x)).2.1)).1 = some x
    ∧ creationCalls ((getOrCreateAnonymousProfile r (some x)).2.2
        ++ (getOrCreateAnonymousProfile r
          ((getOrCreateAnonymousProfile r (some x)).2.1)).2.2) ≤ 1 := by
  have hrun : getOrCreateAnonymousProfile r (some x) = (some x, some x, [Ev.verifyCached x]) := by
    simp [getOrCreateAnonymousProfile, hx]
  refine ⟨by rw [hrun], by simp only [hrun], ?_⟩
  simp only [hrun]
  simp [creationCalls, isCreationCall, List.filter]

/-- Claim C5, witness: the idempotence theorem on a concrete remote that
verifies the cached id `anon-7`. -/
theorem getOrCreateAnonymousProfile_idempotent_witness :
    (getOrCreateAnonymousProfile rCacheHit (some "anon-7")).1 = some "anon-7"
    ∧ (getOrCreateAnonymousProfile rCacheHit
        ((getOrCreateAnonymousProfile rCacheHit (some "anon-7")).2.1)).1 = some "anon-7"
    ∧ creationCalls ((getOrCreateAnonymousProfile rCacheHit (some "anon-7")).2.2
        ++ (getOrCreateAnonymousProfile rCacheHit
          ((getOrCreateAnonymousProfile rCacheHit (some "anon-7")).2.1)).2.2) ≤ 1 :=
  getOrCreateAnonymousProfile_idempotent rCacheHit "anon-7" (by decide)

/-- Claim C6: when the cache holds `old` and the remote store reports it not
found, the next `getOrCreateAnonymousProfile` call evicts it and — the remote
minting only fresh ids — provisions a new id distinct from `old`; across that
call and any sequence of later calls the cache slot never holds `old`
again. -/
theorem getOrCreateAnonymousProfile_selfHealing (old n : String) (r : Remote)
    (rest : List Remote)
    (hmiss : r.existsId old = false)
    (hfresh : ∀ r' ∈ r :: rest, freshFor r' old)
    (hcreate : r.ins Shape.sa = Except.ok n) :
    Ev.evictCache ∈ (getOrCreateAnonymousProfile r (some old)).2.2
    ∧ (getOrCreateAnonymousProfile r (some old)).1 = some n
    ∧ n ≠ old
    ∧ (getOrCreateAnonymousProfile r (some old)).2.1 = some n
    ∧ ∀ c' ∈ cacheStates (r :: rest) (some old), c' ≠ some old := by
  have hfr : freshFor r old := hfresh r (by simp)
  have hno : n ≠ old := hfr.1 Shape.sa n hcreate
  have hrun : getOrCreateAnonymousProfile r (some old)
      = (some n, some n,
          [Ev.verifyCached old, Ev.evictCache, Ev.insAttempt Shape.sa, Ev.storeCache n]) := by
    simp [getOrCreateAnonymousProfile, hmiss, structuredCreate, hcreate]
  refine ⟨by rw [hrun]; simp, by rw [hrun], hno, by rw [hrun], ?_⟩
  have hstates : cacheStates (r :: rest) (some old)
      = some n :: cacheStates rest (some n) := by
    simp [cacheStates, hrun]
  rw [hstates]
  intro c' hc'
  rcases List.mem_cons.mp hc' with h | h
  · rw [h]
    simp [hno]
  · exact cacheStates_safe rest old (some n)
      (fun r' hr' => hfresh r' (List.mem_cons_of_mem _ hr')) (by simp [hno]) c' h

/-- Claim C6, witness: the self-healing theorem on a concrete remote that
reports `stale-1` missing and creates `new-1` on shape (a). -/
theorem getOrCreateAnonymousProfile_selfHealing_witness :
    Ev.evictCache ∈ (getOrCreateAnonymousProfile rFreshA (some "stale-1")).2.2
    ∧ (getOrCreateAnonymousProfile rFreshA (some "stale-1")).1 = some "new-1"
    ∧ (getOrCreateAnonymousProfile rFreshA (some "stale-1")).2.1 = some "new-1" := by
  have hfresh : ∀ r' ∈ [rFreshA], freshFor r' "stale-1" := by
    intro r' hr'
    have hr : r' = rFreshA := by simpa using hr'
    subst hr
    constructor
    · intro s i h
      cases s with
      | sa =>
        simp only [rFreshA] at h
        rw [show i = "new-1" from by simpa using h.symm]
        decide
      | sb => simp [rFreshA] at h
      | sc => simp [rFreshA] at h
    · intro s i h
      simp [rFreshA] at h
  have h := getOrCreateAnonymousProfile_selfHealing "stale-1" "new-1" rFreshA [] rfl hfresh rfl
  exact ⟨h.1, h.2.1, h.2.2.2.1⟩

/-- Claim C9: whatever the remote sign-out does — resolve cleanly, resolve
with a service error, or reject (including the 5000 ms timeout rejection) —
`signOut` finishes with the anonymous-identity cache slot empty and does not
throw. -/
theorem signOut_clears_cache (u : SignOutUpstream) (cache : Option String) :
    (signOut u true cache).1 = none ∧ (signOut u true cache).2 = false := by
  cases u <;> simp [signOut, clearAnonymousProfile]

/-- Claim C2, counterexample: on a remote where shape (a) fails with a
message that does not mention `expires_at`, the structured chain records the
attempt order `[a, c]` — shape (b) is skipped, refuting the claim that (b) is
attempted next whenever (a) fails. -/
theorem fallbackChain_skips_sb_cex :
    rUnrelated.ins Shape.sa = Except.error "new row violates row-level security policy"
    ∧ attemptsOf (getOrCreateAnonymousProfile rUnrelated none).2.2
        = [Shape.sa, Shape.sc] :=
  ⟨rfl, by decide⟩

/-- Claim C2, amended: in a run that reaches the creation chain, shape (b) is
attempted after shape (a) only when (a)'s failure message contains
`expires_at`; in that case if (b) also fails the recorded order is exactly
`[a, b, c]`, and the chain stops at the first success; when (a)'s message
does not mention `expires_at`, the chain skips (b) and the order is
`[a, c]`. -/
theorem fallbackChain_order (r : Remote) (c : Option String)
    (hm : ∀ id, c = some id → r.existsId id = false) :
    (∀ ma mb, r.ins Shape.sa = Except.error ma → strIncludes ma "expires_at" = true →
      r.ins Shape.sb = Except.error mb →
      attemptsOf (getOrCreateAnonymousProfile r c).2.2 = [Shape.sa, Shape.sb, Shape.sc])
    ∧ (∀ ma, r.ins Shape.sa = Except.error ma → strIncludes ma "expires_at" = false →
      attemptsOf (getOrCreateAnonymousProfile r c).2.2 = [Shape.sa, Shape.sc])
    ∧ (∀ i, r.ins Shape.sa = Except.ok i →
      attemptsOf (getOrCreateAnonymousProfile r c).2.2 = [Shape.sa])
    ∧ (∀ ma i, r.ins Shape.sa = Except.error ma → strIncludes ma "expires_at" = true →
      r.ins Shape.sb = Except.ok i →
      attemptsOf (getOrCreateAnonymousProfile r c).2.2 = [Shape.sa, Shape.sb]) := by
  obtain ⟨log0, hrun, hl0⟩ :
      ∃ log0, getOrCreateAnonymousProfile r c = structuredCreate r none log0
        ∧ attemptsOf log0 = [] := by
    cases c with
    | none => exact ⟨[], rfl, rfl⟩
    | some id =>
      refine ⟨[Ev.verifyCached id, Ev.evictCache], ?_, rfl⟩
      simp [getOrCreateAnonymousProfile, hm id rfl]
  refine ⟨?_, ?_, ?_, ?_⟩
  · intro ma mb ha hinc hb
    rw [hrun]
    cases hsc : r.ins Shape.sc with
    | ok i =>
      simp only [structuredCreate, ha, hinc, if_true, hb, hsc]
      rw [attemptsOf_append, hl0]
      rfl
    | error m3 =>
      simp only [structuredCreate, ha, hinc, if_true, hb, hsc]
      rw [attemptsOf_restFallback, attemptsOf_append, hl0]
      rfl
  · intro ma ha hinc
    rw [hrun]
    cases hsc : r.ins Shape.sc with
    | ok i =>
      simp only [structuredCreate, ha, hinc, Bool.false_eq_true, if_false, hsc]
      rw [attemptsOf_append, hl0]
      rfl
    | error m3 =>
      simp only [structuredCreate, ha, hinc, Bool.false_eq_true, if_false, hsc]
      rw [attemptsOf_restFallback, attemptsOf_append, hl0]
      rfl
  · intro i ha
    rw [hrun]
    simp only [structuredCreate, ha]
    rw [attemptsOf_append, hl0]
    rfl
  · intro ma i ha hinc hb
    rw [hrun]
    simp only [structuredCreate, ha, hinc, if_true, hb]
    rw [attemptsOf_append, hl0]
    rfl

/-- Claim C2, witness: the amended ordering theorem evaluated on four concrete
remotes, one per scenario. -/
theorem fallbackChain_order_witness :
    attemptsOf (getOrCreateAnonymousProfile rExpiresFail none).2.2
        = [Shape.sa, Shape.sb, Shape.sc]
    ∧ attemptsOf (getOrCreateAnonymousProfile rDown none).2.2 = [Shape.sa, Shape.sc]
    ∧ attemptsOf (getOrCreateAnonymousProfile rFreshA none).2.2 = [Shape.sa]
    ∧ attemptsOf (getOrCreateAnonymousProfile rShapeBOk none).2.2 = [Shape.sa, Shape.sb] := by
  refine ⟨?_, ?_, ?_, ?_⟩
  · exact (fallbackChain_order rExpiresFail none (by simp)).1 _ _ rfl (by decide) rfl
  · exact (fallbackChain_order rDown none (by simp)).2.1 _ rfl (by decide)
  · exact (fallbackChain_order rFreshA none (by simp)).2.2.1 _ rfl
  · exact (fallbackChain_order rShapeBOk none (by simp)).2.2.2 _ _ rfl (by decide) rfl

theorem runTimeouts_flagged (k : Nat) (st : DiagState) (h : st.authTimeoutLogged = true) :
    (runGetCurrentUserId
        (List.replicate k (AuthUpstream.thrown "Authentication timeout")) st).1
      = List.replicate k none
    ∧ (runGetCurrentUserId
        (List.replicate k (AuthUpstream.thrown "Authentication timeout")) st).2.handlerLog
      = st.handlerLog
    ∧ (runGetCurrentUserId
        (List.replicate k (AuthUpstream.thrown "Authentication timeout")) st).2.authTimeoutLogged
      = true := by
  induction k generalizing st with
  | zero => simpa [runGetCurrentUserId] using h
  | succ k ih =>
    have htm : strIncludes "Authentication timeout" "timeout" = true := by decide
    have hstep : getCurrentUserId (AuthUpstream.thrown "Authentication timeout") st
        = (none, { st with consoleLog := st.consoleLog
            ++ [("debug", "Authentication timeout - using anonymous mode")] }) := by
      simp [getCurrentUserId, htm, h]
    have ihh := ih { st with consoleLog := st.consoleLog
        ++ [("debug", "Authentication timeout - using anonymous mode")] } h
    refine ⟨?_, ?_, ?_⟩ <;>
      simp [List.replicate_succ, runGetCurrentUserId, hstep, ihh.1, ihh.2.1, ihh.2.2]

/-- Claim C3: a session consisting of any number of timed-out
`getCurrentUserId` calls returns `null` from every call (without throwing —
the embedding is total because both catch handlers return `null`) and emits
at most one `errorHandler` diagnostic, gated by `authTimeoutLogged`. -/
theorem getCurrentUserId_timeout_once (k : Nat) :
    (runGetCurrentUserId
        (List.replicate k (AuthUpstream.thrown "Authentication timeout")) initDiagState).1
      = List.replicate k none
    ∧ (runGetCurrentUserId
        (List.replicate k (AuthUpstream.thrown "Authentication timeout"))
          initDiagState).2.handlerLog.length ≤ 1 := by
  cases k with
  | zero => simp [runGetCurrentUserId, initDiagState]
  | succ k =>
    have htm : strIncludes "Authentication timeout" "timeout" = true := by decide
    have hstep : getCurrentUserId (AuthUpstream.thrown "Authentication timeout") initDiagState
        = (none, ⟨true, [("debug", "Authentication timeout - using anonymous mode")],
            [("AUTH_TIMEOUT", "low")]⟩) := by
      simp [getCurrentUserId, htm, initDiagState]
    have ihh := runTimeouts_flagged k
      ⟨true, [("debug", "Authentication timeout - using anonymous mode")],
        [("AUTH_TIMEOUT", "low")]⟩ rfl
    constructor
    · simp [List.replicate_succ, runGetCurrentUserId, hstep, ihh.1]
    · simp [List.replicate_succ, runGetCurrentUserId, hstep, ihh.2.1]

/-- Claim C4, counterexample: two consecutive genuine service errors in one
session produce only one `errorHandler` diagnostic (`AUTH_GET_USER` at
`medium`), not one per occurrence — the service-error diagnostic is gated by
the same `authTimeoutLogged` flag as the timeout diagnostic. -/
theorem getCurrentUserId_serviceError_suppressed_cex :
    (runGetCurrentUserId
        [AuthUpstream.resolved (some "Invalid API key") none,
         AuthUpstream.resolved (some "Invalid API key") none] initDiagState).2.handlerLog
      = [("AUTH_GET_USER", "medium")]
    ∧ (runGetCurrentUserId
        [AuthUpstream.resolved (some "Invalid API key") none,
         AuthUpstream.resolved (some "Invalid API key") none]
          initDiagState).2.handlerLog.length ≠ 2 := by
  decide

theorem runErrs_flagged (ms : List String) (st : DiagState) (h : st.authTimeoutLogged = true) :
    (runGetCurrentUserId (ms.map fun m => AuthUpstream.resolved (some m) none) st).1
      = List.replicate ms.length none
    ∧ (runGetCurrentUserId (ms.map fun m => AuthUpstream.resolved (some m) none) st).2.consoleLog
      = st.consoleLog ++ List.replicate ms.length ("warn", "Error getting current user")
    ∧ (runGetCurrentUserId (ms.map fun m => AuthUpstream.resolved (some m) none) st).2.handlerLog
      = st.handlerLog
    ∧ (runGetCurrentUserId
        (ms.map fun m => AuthUpstream.resolved (some m) none) st).2.authTimeoutLogged
      = true := by
  induction ms generalizing st with
  | nil => simpa [runGetCurrentUserId] using h
  | cons m ms ih =>
    have hstep : getCurrentUserId (AuthUpstream.resolved (some m) none) st
        = (none, { st with consoleLog := st.consoleLog
            ++ [("warn", "Error getting current user")] }) := by
      simp [getCurrentUserId, h]
    have ihh := ih { st with consoleLog := st.consoleLog
        ++ [("warn", "Error getting current user")] } h
    refine ⟨?_, ?_, ?_, ?_⟩ <;>
      simp [runGetCurrentUserId, hstep, ihh.1, ihh.2.1, ihh.2.2.1, ihh.2.2.2,
        List.replicate_succ]

/-- Claim C4, amended: every genuine service-reported error makes
`getCurrentUserId` return `null` and emit a console warning, but the
`errorHandler` diagnostic is emitted at `medium` severity at most once per
session: only while `authTimeoutLogged` is clear, the same flag that gates
timeout diagnostics — later occurrences in the session are suppressed. -/
theorem getCurrentUserId_serviceError_gated (ms : List String) :
    (runGetCurrentUserId
        (ms.map fun m => AuthUpstream.resolved (some m) none) initDiagState).1
      = List.replicate ms.length none
    ∧ (runGetCurrentUserId
        (ms.map fun m => AuthUpstream.resolved (some m) none) initDiagState).2.consoleLog
      = List.replicate ms.length ("warn", "Error getting current user")
    ∧ (runGetCurrentUserId
        (ms.map fun m => AuthUpstream.resolved (some m) none) initDiagState).2.handlerLog
      = if ms.length = 0 then [] else [("AUTH_GET_USER", "medium")] := by
  cases ms with
  | nil => simp [runGetCurrentUserId, initDiagState]
  | cons m ms =>
    have hstep : getCurrentUserId (AuthUpstream.resolved (some m) none) initDiagState
        = (none, ⟨true, [("warn", "Error getting current user")],
            [("AUTH_GET_USER", "medium")]⟩) := by
      simp [getCurrentUserId, initDiagState]
    have ihh := runErrs_flagged ms
      ⟨true, [("warn", "Error getting current user")], [("AUTH_GET_USER", "medium")]⟩ rfl
    refine ⟨?_, ?_, ?_⟩ <;>
      simp [runGetCurrentUserId, hstep, ihh.1, ihh.2.1, ihh.2.2.1, List.replicate_succ]

/-- Claim C8: when no identity is resolvable — the session is unauthenticated
and guest provisioning yields nothing — `getUserQueryFilter true` returns the
sentinel filter (a filter object, never null or an exception: the embedding
is total and every path of the source returns an object), and the sentinel
matches no row whose `user_id` is a real id rather than the literal
`no-user`. -/
theorem getUserQueryFilter_sentinel (st : SessionState) (r : Remote)
    (hauth : st.auth = none)
    (hprov : (getOrCreateAnonymousProfile r st.cache).1 = none) :
    (getUserQueryFilter st r true).1 = noUserFilter
    ∧ ∀ row : Record, jsLookup row "user_id" ≠ Value.vStr "no-user" →
        matchesFilter noUserFilter row = false := by
  constructor
  · simp [getUserQueryFilter, hauth, hprov]
  · intro row hrow
    simp [matchesFilter, noUserFilter, hrow]

/-- Claim C8, witness: with a fully-down remote and an empty cache, the filter
is the sentinel, and the sentinel rejects a concrete row owned by `U1`. -/
theorem getUserQueryFilter_sentinel_witness :
    (getUserQueryFilter ⟨none, none⟩ rDown true).1 = noUserFilter
    ∧ matchesFilter noUserFilter
        [("user_id", Value.vStr "U1"), ("anon_profile_id", Value.vNull)] = false := by
  have h := getUserQueryFilter_sentinel ⟨none, none⟩ rDown rfl (by decide)
  exact ⟨h.1, h.2 _ (by decide)⟩

end AuthHelper
